import Mathlib

/-!
Shallow embedding of `src/cloudquery_sync_dag.py`: an Airflow DAG script
that (a) downloads a platform-specific CloudQuery CLI binary into the
system temp directory, caching it by mere file existence, and (b) runs
`cloudquery sync <spec>` as a subprocess, raising on a non-zero exit code.

Effects are made explicit: host introspection (`platform.system()` /
`platform.machine()`), HTTP (`requests.get`) and `os.popen` live in an
environment record of response functions; the filesystem is an
association list from paths to file records (content bytes plus
permission mode); every side effect performed by `download_cloudquery`
is recorded in a trace of events, so "no network call" is the absence of
a `netGet` event.
-/

/-- ASCII lowercasing, modelling Python `str.lower()` on the ASCII strings
returned by `platform.system()` and `platform.machine()`. -/
def strLower (s : String) : String := ⟨s.data.map Char.toLower⟩

/-- Host platform as reported by `platform.system()` (`rawSystem`) and
`platform.machine()` (`rawMachine`), before the `.lower()` normalization
the script applies. -/
structure Host where
  rawSystem : String
  rawMachine : String

deriving instance DecidableEq for Host

/-- Errors raised by the script.  The source raises `ValueError` for an
unsupported system or architecture (the spec's `UnsupportedPlatformError`,
carrying the offending lowercased value), `requests` errors for a bad
HTTP status or a network failure (the spec's `DownloadError`). -/
inductive CQError where
  | unsupportedSystem (s : String)
  | unsupportedArch (a : String)
  | downloadError (status : Nat)
  | networkError

deriving instance DecidableEq for CQError

/-- Outcome of `requests.get`: either a response with a status code and a
body (a byte sequence), or a network-level failure raised by `requests`. -/
inductive HttpOutcome where
  | resp (status : Nat) (body : List Nat)
  | netError

deriving instance DecidableEq for HttpOutcome

/-- A file on disk: its content bytes and its permission mode bits. -/
structure FileRec where
  content : List Nat
  mode : Nat

deriving instance DecidableEq for FileRec

/-- Filesystem model: an association list from absolute paths to files. -/
abbrev FS := List (String × FileRec)

/-- Observable side effects of `download_cloudquery`, in order. -/
inductive Event where
  | netGet (url : String)
  | fileWrite (path : String) (content : List Nat)
  | chmod (path : String) (mode : Nat)
  | versionCheck (cmd : String) (output : String)

deriving instance DecidableEq for Event

/-- Execution environment of `download_cloudquery`: the host platform,
`tempfile.gettempdir()`, the mode bits a file freshly created by
`open(..., "wb")` receives (umask dependent), the HTTP layer
(`requests.get` by URL), and `os.popen ... .read()` (which captures the
shell's standard output and never raises, returning whatever text the
command produced). -/
structure Env where
  host : Host
  tmpdir : String
  createMode : Nat
  http : String → HttpOutcome
  popen : String → String

/-- Lines 45-52 of the source: the chain of `if/elif` branches mapping the
lowercased `platform.system()` value onto itself for `darwin`, `linux`
and `windows`, and raising `ValueError(f"Unsupported system: {system}")`
otherwise. -/
def normalizeSystem (system : String) : Except CQError String :=
  if system = "darwin" then .ok "darwin"
  else if system = "linux" then .ok "linux"
  else if system = "windows" then .ok "windows"
  else .error (.unsupportedSystem system)

/-- Lines 54-59 of the source: `arch in ["x86_64", "amd64"]` maps to
`amd64`, `arch in ["aarch64", "arm64"]` maps to `arm64`, anything else
raises `ValueError(f"Unsupported architecture: {arch}")`. -/
def normalizeArch (arch : String) : Except CQError String :=
  if arch = "x86_64" ∨ arch = "amd64" then .ok "amd64"
  else if arch = "aarch64" ∨ arch = "arm64" then .ok "arm64"
  else .error (.unsupportedArch arch)

/-- Lines 39-66 of the source, `_get_cloudquery_download_url` (the leading
underscore of the Python name is dropped): detect and normalize the host
platform, then build
`https://github.com/cloudquery/cloudquery/releases/download/cli-<version>/cloudquery_<system>_<arch><extension>`
where `extension` is `.exe` exactly on Windows. -/
def get_cloudquery_download_url (host : Host) (version : String) : Except CQError String :=
  match normalizeSystem (strLower host.rawSystem) with
  | .error e => .error e
  | .ok system =>
    match normalizeArch (strLower host.rawMachine) with
    | .error e => .error e
    | .ok arch =>
      let extension := if system = "windows" then ".exe" else ""
      let filename := "cloudquery_" ++ system ++ "_" ++ arch ++ extension
      .ok ("https://github.com/cloudquery/cloudquery/releases/download/cli-" ++ version ++ "/" ++ filename)

/-- Lines 74-79 of the source: the cache location is the system temp
directory joined with `cloudquery`, plus `.exe` when
`platform.system().lower() == "windows"`.  `os.path.join` is modelled as
joining with a single `/` separator. -/
def cachePath (env : Env) : String :=
  let extension := if strLower env.host.rawSystem = "windows" then ".exe" else ""
  let file_name := "cloudquery" ++ extension
  env.tmpdir ++ "/" ++ file_name

/-- Does a file exist at path `p`?  Models `os.path.exists`. -/
def fsExists (fs : FS) (p : String) : Bool :=
  fs.any fun e => e.fst == p

/-- Models `open(p, "wb") ... f.write(content)`: create or truncate the
file at `p` with the given content; a fresh file gets mode `createMode`. -/
def fsWrite (fs : FS) (p : String) (content : List Nat) (createMode : Nat) : FS :=
  (p, ⟨content, createMode⟩) :: fs.filter fun e => e.fst != p

/-- Models `os.chmod p m`. -/
def fsChmod (fs : FS) (p : String) (m : Nat) : FS :=
  fs.map fun e => if e.fst == p then (e.fst, ⟨e.snd.content, m⟩) else e

/-- Look up the file stored at path `p`. -/
def fsLookup (fs : FS) (p : String) : Option FileRec :=
  (fs.find? fun e => e.fst == p).map Prod.snd

/-- Lines 72-110 of the source, the `download_cloudquery` task.  Returns
the result (`Except` models raised exceptions), the filesystem after the
call, and the trace of performed side effects:
- compute the cache path; if a file exists there, return it at once
  (no events at all);
- otherwise build the download URL (raising on an unsupported platform,
  still without any event), perform `requests.get` on it, and
  `response.raise_for_status()`: a network failure or a 4xx/5xx status
  propagates as an error after the single `netGet` event;
- on success write the body to the cache path, `os.chmod` it to `0o755`
  unless on Windows, run `<path> --version` through `os.popen` (logging
  its output; `os.popen` cannot fail), and return the cache path. -/
def download_cloudquery (env : Env) (fs : FS) (version : String) :
    Except CQError String × FS × List Event :=
  let file_path := cachePath env
  if fsExists fs file_path then
    (.ok file_path, fs, [])
  else
    match get_cloudquery_download_url env.host version with
    | .error e => (.error e, fs, [])
    | .ok url =>
      match env.http url with
      | .netError => (.error .networkError, fs, [.netGet url])
      | .resp status body =>
        if 400 ≤ status ∧ status < 600 then
          (.error (.downloadError status), fs, [.netGet url])
        else
          let fs1 := fsWrite fs file_path body env.createMode
          let ev1 := [Event.netGet url, Event.fileWrite file_path body]
          let fs2 := if strLower env.host.rawSystem ≠ "windows" then fsChmod fs1 file_path 0o755 else fs1
          let ev2 := if strLower env.host.rawSystem ≠ "windows" then ev1 ++ [Event.chmod file_path 0o755] else ev1
          let cmd := file_path ++ " --version"
          (.ok file_path, fs2, ev2 ++ [Event.versionCheck cmd (env.popen cmd)])

/-- Result of `subprocess.run(..., capture_output=True)`: the exit code
and the captured standard output and standard error, modelled as already
decoded text. -/
structure ProcResult where
  returncode : Int
  stdout : String
  stderr : String

deriving instance DecidableEq for ProcResult

/-- Lines 117-120 of the source, the `run_xkcd_to_sqlite_sync` task: run
`[cloudquery_path, "sync", spec_file_path]` as a child process (`proc`
models `subprocess.run` with captured output) and raise
`Exception(f"CloudQuery sync failed with return code {returncode}. Output: {stdout}")`
when the exit code is non-zero; otherwise return nothing. -/
def run_xkcd_to_sqlite_sync (proc : List String → ProcResult)
    (spec_file_path : String) (cloudquery_path : String) : Except String Unit :=
  let result := proc [cloudquery_path, "sync", spec_file_path]
  if result.returncode ≠ 0 then
    .error ("CloudQuery sync failed with return code " ++ toString result.returncode ++
      ". Output: " ++ result.stdout)
  else
    .ok ()

/-! Concrete environments used by witnesses. -/

/-- A Linux/amd64 host whose HTTP layer answers 200 with body `[7, 7]`. -/
def linuxEnv : Env :=
  ⟨⟨"Linux", "x86_64"⟩, "/tmp", 420, fun _ => .resp 200 [7, 7], fun _ => "cloudquery version 6.4.1"⟩

/-- A Linux/amd64 host whose HTTP layer answers 404. -/
def err404Env : Env :=
  ⟨⟨"Linux", "x86_64"⟩, "/tmp", 420, fun _ => .resp 404 [], fun _ => ""⟩

/-- A Windows/amd64 host whose HTTP layer answers 200 with body `[9]`. -/
def winEnv : Env :=
  ⟨⟨"Windows", "AMD64"⟩, "C:/Temp", 438, fun _ => .resp 200 [9], fun _ => "cq"⟩

/-- A host outside the recognized platform set. -/
def badHostEnv : Env :=
  ⟨⟨"plan9", "riscv64"⟩, "/tmp", 420, fun _ => .netError, fun _ => ""⟩

/-- The URL the script builds for version `v6.4.1` on linux/amd64. -/
def linuxUrl : String :=
  "https://github.com/cloudquery/cloudquery/releases/download/cli-v6.4.1/cloudquery_linux_amd64"

/-! Helper lemmas about the filesystem model. -/

theorem fsExists_fsWrite (fs : FS) (p : String) (c : List Nat) (m : Nat) :
    fsExists (fsWrite fs p c m) p = true := by
  simp [fsExists, fsWrite]

theorem fsChmod_fst (e : String × FileRec) (p : String) (m : Nat) :
    (if e.fst == p then (e.fst, (⟨e.snd.content, m⟩ : FileRec)) else e).fst = e.fst := by
  split <;> rfl

theorem fsExists_fsChmod (fs : FS) (p q : String) (m : Nat) :
    fsExists (fsChmod fs p m) q = fsExists fs q := by
  induction fs with
  | nil => rfl
  | cons e t ih =>
    simp only [fsChmod, List.map_cons, fsExists, List.any_cons] at ih ⊢
    rw [fsChmod_fst, ih]

theorem fsLookup_fsWrite (fs : FS) (p : String) (c : List Nat) (m : Nat) :
    fsLookup (fsWrite fs p c m) p = some ⟨c, m⟩ := by
  simp [fsLookup, fsWrite, List.find?]

theorem fsLookup_fsChmod (fs : FS) (p : String) (m : Nat) :
    fsLookup (fsChmod fs p m) p = (fsLookup fs p).map fun r => ⟨r.content, m⟩ := by
  induction fs with
  | nil => rfl
  | cons e t ih =>
    by_cases hp : e.fst = p
    · simp [fsLookup, fsChmod, List.find?, hp]
    · simp only [fsChmod, List.map_cons] at *
      rw [if_neg (by simpa using hp)]
      simp only [fsLookup, List.find?] at *
      rw [show (e.fst == p) = false by simpa using hp] at *
      exact ih

/-! Helper lemmas about platform normalization. -/

theorem normalizeSystem_ok (s : String) (hs : s ∈ ["darwin", "linux", "windows"]) :
    normalizeSystem s = .ok s := by
  fin_cases hs <;> rfl

theorem normalizeSystem_err (s : String) (hs : s ∉ ["darwin", "linux", "windows"]) :
    normalizeSystem s = .error (.unsupportedSystem s) := by
  simp only [List.mem_cons, List.not_mem_nil, or_false, not_or] at hs
  obtain ⟨h1, h2, h3⟩ := hs
  simp [normalizeSystem, h1, h2, h3]

theorem normalizeArch_ok (a : String) (ha : a ∈ ["x86_64", "amd64", "aarch64", "arm64"]) :
    normalizeArch a = .ok (if a = "x86_64" ∨ a = "amd64" then "amd64" else "arm64") := by
  fin_cases ha <;> rfl

theorem normalizeArch_err (a : String) (ha : a ∉ ["x86_64", "amd64", "aarch64", "arm64"]) :
    normalizeArch a = .error (.unsupportedArch a) := by
  simp only [List.mem_cons, List.not_mem_nil, or_false, not_or] at ha
  obtain ⟨h1, h2, h3, h4⟩ := ha
  simp [normalizeArch, h1, h2, h3, h4]

theorem get_url_err (host : Host) (version : String)
    (hbad : strLower host.rawSystem ∉ ["darwin", "linux", "windows"] ∨
      strLower host.rawMachine ∉ ["x86_64", "amd64", "aarch64", "arm64"]) :
    ∃ e, get_cloudquery_download_url host version = .error e ∧
      (e = .unsupportedSystem (strLower host.rawSystem) ∨
       e = .unsupportedArch (strLower host.rawMachine)) := by
  rcases hbad with hb | hb
  · exact ⟨_, by simp [get_cloudquery_download_url, normalizeSystem_err _ hb], Or.inl rfl⟩
  · by_cases hsys : strLower host.rawSystem ∈ ["darwin", "linux", "windows"]
    · exact ⟨_, by simp [get_cloudquery_download_url, normalizeSystem_ok _ hsys,
        normalizeArch_err _ hb], Or.inr rfl⟩
    · exact ⟨_, by simp [get_cloudquery_download_url, normalizeSystem_err _ hsys], Or.inl rfl⟩

/-! Helper lemmas about `download_cloudquery`. -/

theorem download_cloudquery_of_hit (env : Env) (fs : FS) (version : String)
    (h : fsExists fs (cachePath env) = true) :
    download_cloudquery env fs version = (.ok (cachePath env), fs, []) := by
  simp [download_cloudquery, h]

theorem download_cloudquery_ok_inv (env : Env) (fs : FS) (version p : String)
    (fs1 : FS) (ev : List Event)
    (h : download_cloudquery env fs version = (.ok p, fs1, ev)) :
    p = cachePath env ∧ fsExists fs1 (cachePath env) = true := by
  simp only [download_cloudquery] at h
  split at h
  · rename_i hex
    injection h with h1 hrest
    injection hrest with h2 h3
    injection h1 with hp
    exact ⟨hp.symm, h2 ▸ hex⟩
  · split at h
    · simp at h
    · split at h
      · simp at h
      · split at h
        · simp at h
        · injection h with h1 hrest
          injection hrest with h2 h3
          injection h1 with hp
          refine ⟨hp.symm, ?_⟩
          rw [← h2]
          split
          · rw [fsExists_fsChmod]
            exact fsExists_fsWrite ..
          · exact fsExists_fsWrite ..

theorem download_cloudquery_fresh_success (env : Env) (fs : FS) (version url : String)
    (status : Nat) (body : List Nat)
    (hmiss : fsExists fs (cachePath env) = false)
    (hurl : get_cloudquery_download_url env.host version = .ok url)
    (henv : env.http url = .resp status body)
    (hok : ¬(400 ≤ status ∧ status < 600)) :
    download_cloudquery env fs version =
      (.ok (cachePath env),
       (if strLower env.host.rawSystem ≠ "windows" then
          fsChmod (fsWrite fs (cachePath env) body env.createMode) (cachePath env) 0o755
        else fsWrite fs (cachePath env) body env.createMode),
       (if strLower env.host.rawSystem ≠ "windows" then
          [Event.netGet url, Event.fileWrite (cachePath env) body] ++
            [Event.chmod (cachePath env) 0o755]
        else [Event.netGet url, Event.fileWrite (cachePath env) body]) ++
         [Event.versionCheck (cachePath env ++ " --version")
           (env.popen (cachePath env ++ " --version"))]) := by
  simp only [download_cloudquery, hurl, henv]
  rw [if_neg (by simp [hmiss]), if_neg hok]

/-- C1: for every version string and each of the six recognized
(OS, architecture) pairs — darwin/linux/windows crossed with
amd64/arm64, where `x86_64` normalizes to `amd64` and `aarch64` to
`arm64` — the download-URL construction returns exactly
`https://github.com/cloudquery/cloudquery/releases/download/cli-<version>/cloudquery_<os>_<arch>`
with `.exe` appended precisely when the OS is windows; being a plain
function of the host pair and the version, it is deterministic in them. -/
theorem get_cloudquery_download_url_supported (version s a : String)
    (hs : s ∈ ["darwin", "linux", "windows"])
    (ha : a ∈ ["x86_64", "amd64", "aarch64", "arm64"]) :
    get_cloudquery_download_url ⟨s, a⟩ version =
      .ok ("https://github.com/cloudquery/cloudquery/releases/download/cli-" ++ version ++ "/" ++
        ("cloudquery_" ++ s ++ "_" ++ (if a = "x86_64" ∨ a = "amd64" then "amd64" else "arm64") ++
          (if s = "windows" then ".exe" else ""))) := by
  fin_cases hs <;> fin_cases ha <;> rfl

/-- Witness for C1 at the linux/x86_64 pair and version `v6.4.1`. -/
theorem get_cloudquery_download_url_supported_witness :
    "linux" ∈ ["darwin", "linux", "windows"] ∧
    "x86_64" ∈ ["x86_64", "amd64", "aarch64", "arm64"] ∧
    get_cloudquery_download_url ⟨"linux", "x86_64"⟩ "v6.4.1" =
      .ok ("https://github.com/cloudquery/cloudquery/releases/download/cli-" ++ "v6.4.1" ++ "/" ++
        ("cloudquery_" ++ "linux" ++ "_" ++
          (if "x86_64" = "x86_64" ∨ "x86_64" = "amd64" then "amd64" else "arm64") ++
          (if "linux" = "windows" then ".exe" else ""))) :=
  ⟨by decide, by decide,
    get_cloudquery_download_url_supported "v6.4.1" "linux" "x86_64" (by decide) (by decide)⟩

/-- C2 counterexample: a host with OS `plan9` and architecture `riscv64`
(both outside the recognized sets) on which `download_cloudquery`
nonetheless returns successfully, because a file already sits at the
cache path and the existence check precedes platform validation.  This
refutes the claim read over every state: resolution does not always fail
on an unrecognized platform. -/
theorem download_cloudquery_unsupported_cached_counterexample :
    strLower "plan9" ∉ ["darwin", "linux", "windows"] ∧
    strLower "riscv64" ∉ ["x86_64", "amd64", "aarch64", "arm64"] ∧
    download_cloudquery badHostEnv [("/tmp/cloudquery", ⟨[1], 493⟩)] "v6.4.1" =
      (.ok "/tmp/cloudquery", [("/tmp/cloudquery", ⟨[1], 493⟩)], []) :=
  ⟨by decide, by decide, rfl⟩

/-- C2 (amended with a cache miss): on a host whose lowercased OS string
is outside {darwin, linux, windows} or whose lowercased architecture
string is outside {x86_64, amd64, aarch64, arm64}, if no file sits at
the cache path then `download_cloudquery` fails with the
unsupported-platform error naming the offending value, leaves the
filesystem untouched and performs no network call (empty event trace). -/
theorem download_cloudquery_unsupported_fails (env : Env) (fs : FS) (version : String)
    (hmiss : fsExists fs (cachePath env) = false)
    (hbad : strLower env.host.rawSystem ∉ ["darwin", "linux", "windows"] ∨
      strLower env.host.rawMachine ∉ ["x86_64", "amd64", "aarch64", "arm64"]) :
    ∃ e, download_cloudquery env fs version = (.error e, fs, []) ∧
      (e = .unsupportedSystem (strLower env.host.rawSystem) ∨
       e = .unsupportedArch (strLower env.host.rawMachine)) := by
  obtain ⟨e, he, hform⟩ := get_url_err env.host version hbad
  exact ⟨e, by simp [download_cloudquery, hmiss, he], hform⟩

/-- Witness for the amended C2 on the plan9/riscv64 host with an empty
filesystem. -/
theorem download_cloudquery_unsupported_fails_witness :
    fsExists [] (cachePath badHostEnv) = false ∧
    ∃ e, download_cloudquery badHostEnv [] "v6.4.1" = (.error e, [], []) ∧
      (e = .unsupportedSystem (strLower badHostEnv.host.rawSystem) ∨
       e = .unsupportedArch (strLower badHostEnv.host.rawMachine)) :=
  ⟨rfl, download_cloudquery_unsupported_fails badHostEnv [] "v6.4.1" rfl (Or.inl (by decide))⟩

/-- C4: the resolver is idempotent.  Whenever `download_cloudquery`
returns a path successfully, running it again — with any requested
version — on the resulting filesystem is a pure cache hit: it returns
the identical path, changes nothing, and its event trace is empty, so in
particular the second invocation performs zero network calls. -/
theorem download_cloudquery_idempotent (env : Env) (fs : FS) (v1 v2 p : String)
    (fs1 : FS) (ev : List Event)
    (h : download_cloudquery env fs v1 = (.ok p, fs1, ev)) :
    download_cloudquery env fs1 v2 = (.ok p, fs1, []) := by
  obtain ⟨hp, hex⟩ := download_cloudquery_ok_inv env fs v1 p fs1 ev h
  subst hp
  exact download_cloudquery_of_hit env fs1 v2 hex

/-- Witness for C4: a fresh download on the Linux host followed by a
second invocation with a different version. -/
theorem download_cloudquery_idempotent_witness :
    download_cloudquery linuxEnv [("/tmp/cloudquery", ⟨[7, 7], 493⟩)] "v7.0.0" =
      (.ok "/tmp/cloudquery", [("/tmp/cloudquery", ⟨[7, 7], 493⟩)], []) :=
  download_cloudquery_idempotent linuxEnv [] "v6.4.1" "v7.0.0" "/tmp/cloudquery"
    [("/tmp/cloudquery", ⟨[7, 7], 493⟩)]
    [.netGet linuxUrl, .fileWrite "/tmp/cloudquery" [7, 7], .chmod "/tmp/cloudquery" 493,
     .versionCheck "/tmp/cloudquery --version" "cloudquery version 6.4.1"] rfl

/-- C5: whenever `download_cloudquery` returns a path — on the cache-hit
branch and on the fresh-download branch alike — that path is exactly the
system temp directory joined with the filename `cloudquery`, with `.exe`
appended precisely when the host OS is windows.  The right-hand side
mentions neither the version nor the architecture, so the returned path
is one and the same string for every requested version. -/
theorem download_cloudquery_path_formula (env : Env) (fs : FS) (version p : String)
    (fs1 : FS) (ev : List Event)
    (h : download_cloudquery env fs version = (.ok p, fs1, ev)) :
    p = env.tmpdir ++ "/" ++
      ("cloudquery" ++ (if strLower env.host.rawSystem = "windows" then ".exe" else "")) := by
  obtain ⟨hp, -⟩ := download_cloudquery_ok_inv env fs version p fs1 ev h
  exact hp

/-- Witness for C5: the fresh-download branch on the Linux host. -/
theorem download_cloudquery_path_formula_witness :
    "/tmp/cloudquery" = linuxEnv.tmpdir ++ "/" ++
      ("cloudquery" ++ (if strLower linuxEnv.host.rawSystem = "windows" then ".exe" else "")) :=
  download_cloudquery_path_formula linuxEnv [] "v6.4.1" "/tmp/cloudquery"
    [("/tmp/cloudquery", ⟨[7, 7], 493⟩)]
    [.netGet linuxUrl, .fileWrite "/tmp/cloudquery" [7, 7], .chmod "/tmp/cloudquery" 493,
     .versionCheck "/tmp/cloudquery --version" "cloudquery version 6.4.1"] rfl

/-- C8: the cache-existence check comes first, so whenever a file exists
at the cache path, `download_cloudquery` returns that path with no
error, no filesystem change and an empty event trace — for every host,
including hosts whose OS or architecture lies outside the recognized
set, since no hypothesis on the platform is needed. -/
theorem download_cloudquery_cache_hit_skips_validation (env : Env) (fs : FS) (version : String)
    (h : fsExists fs (cachePath env) = true) :
    download_cloudquery env fs version = (.ok (cachePath env), fs, []) :=
  download_cloudquery_of_hit env fs version h

/-- Witness for C8 on the unrecognized plan9/riscv64 host with a
populated cache. -/
theorem download_cloudquery_cache_hit_skips_validation_witness :
    download_cloudquery badHostEnv [("/tmp/cloudquery", ⟨[2, 2], 420⟩)] "v9.9.9" =
      (.ok (cachePath badHostEnv), [("/tmp/cloudquery", ⟨[2, 2], 420⟩)], []) :=
  download_cloudquery_cache_hit_skips_validation badHostEnv
    [("/tmp/cloudquery", ⟨[2, 2], 420⟩)] "v9.9.9" rfl

/-- C3: the sync runner raises exactly when the child process exit code
is non-zero; the raised message is the exact text
`CloudQuery sync failed with return code <code>. Output: <stdout>`,
containing the exit code and the captured standard output; replacing the
child's standard error by any other text changes nothing, so standard
error is discarded; on a zero exit code the runner returns normally with
no result value. -/
theorem run_xkcd_to_sqlite_sync_spec (proc : List String → ProcResult)
    (spec_file_path cloudquery_path : String) (r : ProcResult)
    (hr : proc [cloudquery_path, "sync", spec_file_path] = r) :
    (r.returncode = 0 → run_xkcd_to_sqlite_sync proc spec_file_path cloudquery_path = .ok ()) ∧
    (r.returncode ≠ 0 →
      run_xkcd_to_sqlite_sync proc spec_file_path cloudquery_path =
        .error ("CloudQuery sync failed with return code " ++ toString r.returncode ++
          ". Output: " ++ r.stdout)) ∧
    ∀ alt : String,
      run_xkcd_to_sqlite_sync (fun args => ⟨(proc args).returncode, (proc args).stdout, alt⟩)
        spec_file_path cloudquery_path =
        run_xkcd_to_sqlite_sync proc spec_file_path cloudquery_path := by
  refine ⟨fun h0 => ?_, fun hne => ?_, fun alt => rfl⟩
  · simp [run_xkcd_to_sqlite_sync, hr, h0]
  · simp [run_xkcd_to_sqlite_sync, hr, hne]

/-- Witness for C3: exit code 2 with captured output `boom`. -/
theorem run_xkcd_to_sqlite_sync_spec_witness :
    ((fun _ => (⟨2, "boom", "hidden"⟩ : ProcResult)) ["/tmp/cloudquery", "sync", "spec.yml"] =
      (⟨2, "boom", "hidden"⟩ : ProcResult)) ∧
    run_xkcd_to_sqlite_sync (fun _ => ⟨2, "boom", "hidden"⟩) "spec.yml" "/tmp/cloudquery" =
      .error "CloudQuery sync failed with return code 2. Output: boom" :=
  ⟨rfl, (run_xkcd_to_sqlite_sync_spec (fun _ => ⟨2, "boom", "hidden"⟩) "spec.yml"
    "/tmp/cloudquery" ⟨2, "boom", "hidden"⟩ rfl).2.1 (by decide)⟩

/-- C6: on a cache miss with a recognized platform, `download_cloudquery`
performs the HTTP GET on the constructed URL (the first traced event);
if the response status is in 400..599 the call fails with the download
error carrying that status, and otherwise the full response body is
written to the cache path. -/
theorem download_cloudquery_fresh_get (env : Env) (fs : FS) (version url : String)
    (hmiss : fsExists fs (cachePath env) = false)
    (hurl : get_cloudquery_download_url env.host version = .ok url) :
    (download_cloudquery env fs version).2.2.head? = some (.netGet url) ∧
    ∀ status body, env.http url = .resp status body →
      ((400 ≤ status ∧ status < 600) →
        download_cloudquery env fs version = (.error (.downloadError status), fs, [.netGet url])) ∧
      (¬(400 ≤ status ∧ status < 600) →
        ∃ m, fsLookup (download_cloudquery env fs version).2.1 (cachePath env) =
          some ⟨body, m⟩) := by
  constructor
  · cases henv : env.http url with
    | netError => simp [download_cloudquery, hmiss, hurl, henv]
    | resp status body =>
      by_cases hst : 400 ≤ status ∧ status < 600
      · simp [download_cloudquery, hmiss, hurl, henv, hst]
      · simp only [download_cloudquery, hmiss, hurl, henv]
        rw [if_neg (by simp), if_neg hst]
        split <;> simp
  · intro status body henv
    constructor
    · intro hst
      simp [download_cloudquery, hmiss, hurl, henv, hst]
    · intro hst
      simp only [download_cloudquery, hmiss, hurl, henv]
      rw [if_neg (by simp), if_neg hst]
      split
      · exact ⟨0o755, by rw [fsLookup_fsChmod, fsLookup_fsWrite]; rfl⟩
      · exact ⟨env.createMode, fsLookup_fsWrite ..⟩

/-- Witness for C6: the Linux host whose HTTP layer answers 404. -/
theorem download_cloudquery_fresh_get_witness :
    fsExists [] (cachePath err404Env) = false ∧
    ((download_cloudquery err404Env [] "v6.4.1").2.2.head? = some (.netGet linuxUrl) ∧
    ∀ status body, err404Env.http linuxUrl = .resp status body →
      ((400 ≤ status ∧ status < 600) →
        download_cloudquery err404Env [] "v6.4.1" =
          (.error (.downloadError status), [], [.netGet linuxUrl])) ∧
      (¬(400 ≤ status ∧ status < 600) →
        ∃ m, fsLookup (download_cloudquery err404Env [] "v6.4.1").2.1 (cachePath err404Env) =
          some ⟨body, m⟩)) :=
  ⟨rfl, download_cloudquery_fresh_get err404Env [] "v6.4.1" linuxUrl rfl rfl⟩

/-- C7: after a successful fresh download on a non-Windows host the cache
file's permission mode is exactly `0o755` (so owner, group and other all
have the execute bit) and the chmod is traced; on Windows no chmod event
occurs at all. -/
theorem download_cloudquery_chmod_exec (env : Env) (fs : FS) (version url : String)
    (status : Nat) (body : List Nat)
    (hmiss : fsExists fs (cachePath env) = false)
    (hurl : get_cloudquery_download_url env.host version = .ok url)
    (henv : env.http url = .resp status body)
    (hok : ¬(400 ≤ status ∧ status < 600)) :
    (strLower env.host.rawSystem ≠ "windows" →
      fsLookup (download_cloudquery env fs version).2.1 (cachePath env) = some ⟨body, 0o755⟩ ∧
      Event.chmod (cachePath env) 0o755 ∈ (download_cloudquery env fs version).2.2) ∧
    (strLower env.host.rawSystem = "windows" →
      ∀ q m, Event.chmod q m ∉ (download_cloudquery env fs version).2.2) := by
  constructor
  · intro hw
    simp only [download_cloudquery, hmiss, hurl, henv]
    rw [if_neg (by simp), if_neg hok, if_pos hw, if_pos hw]
    constructor
    · rw [fsLookup_fsChmod, fsLookup_fsWrite]
      rfl
    · simp
  · intro hw
    intro q m
    have hw' : ¬(strLower env.host.rawSystem ≠ "windows") := by simp [hw]
    simp only [download_cloudquery, hmiss, hurl, henv]
    rw [if_neg (by simp), if_neg hok, if_neg hw', if_neg hw']
    simp

/-- Witness for C7, non-Windows side, on the Linux host. -/
theorem download_cloudquery_chmod_exec_witness :
    fsLookup (download_cloudquery linuxEnv [] "v6.4.1").2.1 (cachePath linuxEnv) =
      some ⟨[7, 7], 0o755⟩ ∧
    Event.chmod (cachePath linuxEnv) 0o755 ∈ (download_cloudquery linuxEnv [] "v6.4.1").2.2 :=
  (download_cloudquery_chmod_exec linuxEnv [] "v6.4.1" linuxUrl 200 [7, 7]
    rfl rfl rfl (by decide)).1 (by decide)

/-- C9: when the cache is empty and the HTTP GET fails — a network-level
error, or a 4xx/5xx status that makes `raise_for_status` raise — the
call errors out with the filesystem exactly as before: no file, not even
a partial one, is created at the cache path, and the only traced event
is the GET itself. -/
theorem download_cloudquery_error_leaves_fs (env : Env) (fs : FS) (version url : String)
    (hmiss : fsExists fs (cachePath env) = false)
    (hurl : get_cloudquery_download_url env.host version = .ok url) :
    (env.http url = .netError →
      download_cloudquery env fs version = (.error .networkError, fs, [.netGet url])) ∧
    (∀ status body, env.http url = .resp status body → 400 ≤ status → status < 600 →
      download_cloudquery env fs version = (.error (.downloadError status), fs, [.netGet url])) := by
  constructor
  · intro henv
    simp [download_cloudquery, hmiss, hurl, henv]
  · intro status body henv h4 h6
    simp [download_cloudquery, hmiss, hurl, henv, h4, h6]

/-- Witness for C9: the 404 answer on the Linux host leaves the empty
filesystem empty. -/
theorem download_cloudquery_error_leaves_fs_witness :
    err404Env.http linuxUrl = .resp 404 [] ∧
    download_cloudquery err404Env [] "v6.4.1" =
      (.error (.downloadError 404), [], [.netGet linuxUrl]) :=
  ⟨rfl, (download_cloudquery_error_leaves_fs err404Env [] "v6.4.1" linuxUrl rfl rfl).2
    404 [] rfl (by decide) (by decide)⟩

/-- C10: a successful fresh download ends by running
`<cache-path> --version` through `os.popen` and logging whatever text
it captured (the traced version-check event); `os.popen` cannot raise,
and swapping in any other popen behaviour leaves both the returned path
and the final filesystem unchanged, so the version check is advisory
only and the resolver returns the cache path regardless of its outcome. -/
theorem download_cloudquery_version_check_nonfatal (env : Env) (fs : FS) (version url : String)
    (status : Nat) (body : List Nat)
    (hmiss : fsExists fs (cachePath env) = false)
    (hurl : get_cloudquery_download_url env.host version = .ok url)
    (henv : env.http url = .resp status body)
    (hok : ¬(400 ≤ status ∧ status < 600)) :
    Event.versionCheck (cachePath env ++ " --version")
        (env.popen (cachePath env ++ " --version")) ∈ (download_cloudquery env fs version).2.2 ∧
    ∀ g : String → String,
      (download_cloudquery ⟨env.host, env.tmpdir, env.createMode, env.http, g⟩ fs version).1 =
        .ok (cachePath env) ∧
      (download_cloudquery ⟨env.host, env.tmpdir, env.createMode, env.http, g⟩ fs version).2.1 =
        (download_cloudquery env fs version).2.1 := by
  have h1 := download_cloudquery_fresh_success env fs version url status body hmiss hurl henv hok
  constructor
  · rw [h1]
    simp
  · intro g
    have h2 := download_cloudquery_fresh_success ⟨env.host, env.tmpdir, env.createMode, env.http, g⟩
      fs version url status body hmiss hurl henv hok
    rw [h1, h2]
    exact ⟨rfl, rfl⟩

/-- Witness for C10 on the Linux host. -/
theorem download_cloudquery_version_check_nonfatal_witness :
    Event.versionCheck (cachePath linuxEnv ++ " --version")
        (linuxEnv.popen (cachePath linuxEnv ++ " --version")) ∈
      (download_cloudquery linuxEnv [] "v6.4.1").2.2 ∧
    ∀ g : String → String,
      (download_cloudquery ⟨linuxEnv.host, linuxEnv.tmpdir, linuxEnv.createMode,
        linuxEnv.http, g⟩ [] "v6.4.1").1 = .ok (cachePath linuxEnv) ∧
      (download_cloudquery ⟨linuxEnv.host, linuxEnv.tmpdir, linuxEnv.createMode,
        linuxEnv.http, g⟩ [] "v6.4.1").2.1 =
        (download_cloudquery linuxEnv [] "v6.4.1").2.1 :=
  download_cloudquery_version_check_nonfatal linuxEnv [] "v6.4.1" linuxUrl 200 [7, 7]
    rfl rfl rfl (by decide)
